import Mathlib

/-!
Verification of the Chec integration-configuration SDK core
(`src/index.ts`, legacy revision, and `src/unnamed/part_000`, revised
revision) against its natural-language specification.

The embedding below follows the revised source file except where a
definition is explicitly marked `Legacy`, in which case it follows the
legacy `src/index.ts` revision.

Modelling choices:
* `Config` (TS: `{ [key: string]: any }`) is modelled as an association
  list from string keys to integers; the SDK never inspects a config
  value, so the value type is irrelevant to every property proved here.
* Event payloads (TS: `any`) are modelled at type `Config`, the one type
  at which the SDK itself uses a payload (the `set-config` state updater
  assigns the payload to the config mirror).
* User-supplied callbacks (event handlers, config watchers) are opaque in
  the source; they are modelled by numeric identifiers together with an
  observation trace (`LogEntry`): an entry is appended whenever the code
  under verification invokes a callback or emits an outbound message.
  The handler universe (`HandlerSpec`) contains the two handler shapes the
  SDK itself registers (`updater` from the constructor, `onHandler` from
  `on`) plus two user-handler shapes: `plain` (records its invocation) and
  `pusher` (records its invocation and registers a further handler, which
  exercises mutation of the handler list during a dispatch pass).
* `Array.prototype.forEach` fixes the iteration length before the first
  callback invocation (ECMA-262), so handlers appended during `trigger`
  are not visited in that pass; `trigger` is modelled accordingly by
  capturing `handlers.length` and walking indices `0 .. length - 1`,
  reading the (possibly grown) list at each index.
* `getBoundingClientRect` coordinates are modelled as integers; the
  claims about the height formula are purely arithmetic in `y` and
  `height`.
-/

namespace ChecSDK

/-- TS `type Config = { [key: string]: any }`, modelled as an association
list of key/value pairs. -/
abbrev Config := List (String × Int)

/-- The `field` member of a dashboard event.  In TS it is
`KeyableSchemaItem | ButtonSchemaItem | null`; both non-null variants carry
a string `key`, which is the only member the SDK reads. -/
structure EventField where
  key : String
deriving DecidableEq

/-- TS `interface DashboardEvent { event: string, field: ... | null, payload: any }`. -/
structure DashboardEvent where
  event : String
  field : Option EventField
  payload : Config
deriving DecidableEq

/-- TS `enum SchemaFieldTypes`. -/
inductive SchemaFieldTypes where
  | shortText
  | longText
  | number
  | wysiwyg
  | boolean
  | select
  | button
  | link
  | apiKey
  | html
  | password
deriving DecidableEq

/-- One select option: `{ value: string, label: string }`. -/
structure SelectOption where
  value : String
  label : String

/-- TS `UsableSchemaItems`: the closed union of schema field descriptors.
`subSchemaItem` recursively holds another schema (list of items). -/
inductive SchemaItem where
  | textItem (ty : SchemaFieldTypes) (key : String) (label : String)
      (dflt : Option String) (description : Option String)
      (disabled : Option Bool) (required : Option Bool)
  | numberItem (key : String) (label : String)
      (dflt : Option Int) (description : Option String)
      (disabled : Option Bool) (required : Option Bool)
  | booleanItem (key : String) (label : String)
      (dflt : Option Bool) (description : Option String)
      (disabled : Option Bool) (required : Option Bool)
  | htmlItem (content : String)
  | buttonItem (key : String) (label : String) (disabled : Option Bool)
  | linkItem (label : String) (href : String)
  | selectItem (key : String) (label : String)
      (multiselect : Option Bool) (options : List SelectOption)
      (dflt : Option (List String)) (description : Option String)
      (disabled : Option Bool) (required : Option Bool)
  | subSchemaItem (key : String) (label : String)
      (description : Option String) (schema : List SchemaItem)

/-- TS `type Schema = Array<UsableSchemaItems>`. -/
abbrev Schema := List SchemaItem

/-- Payload of an outbound `emit` call. -/
inductive EmitPayload where
  | str (v : String)
  | cfg (v : Config)
  | bool (v : Bool)
  | schema (v : Schema)

/-- Observation trace entries.  `run idx` records the event bus invoking
the handler stored at index `idx`; `call id` records a user callback being
invoked (with no arguments); `watcher id c` records a config watcher being
invoked with the new config `c`; `emit name p` records an outbound
`parent.emit(name, p)`. -/
inductive LogEntry where
  | run (idx : Nat)
  | call (id : Nat)
  | watcher (id : Nat) (newConfig : Config)
  | emit (name : String) (payload : Option EmitPayload)

/-- The universe of event-bus handlers (see the module comment). -/
inductive HandlerSpec where
  | updater
  | onHandler (event : String) (fieldKey : String) (cb : Nat)
  | plain (id : Nat)
  | pusher (id : Nat) (pushedId : Nat)

/-- The combined state of one `ConfigSDK` session and its `EventBus`
(the TS constructor closes over both; the handler closures mutate the
session fields, so the two are one state machine).  `log` is the
observation trace. -/
structure SDKState where
  config : Config
  configWatchers : List Nat
  editMode : Bool
  template : String
  handlers : List HandlerSpec
  log : List LogEntry

/-- TS `candidateEvent.field && candidateEvent.field.key === key`:
the field is non-null and its key equals `key`. -/
def fieldKeyMatches (field : Option EventField) (key : String) : Bool :=
  match field with
  | none => false
  | some f => f.key == key

/-- The guard of the handler registered by `ConfigSDK.on`:
`candidateEvent.event === event && candidateEvent.field &&
candidateEvent.field.key === key`. -/
def onMatches (event : String) (key : String) (e : DashboardEvent) : Bool :=
  e.event == event && fieldKeyMatches e.field key

/-- The trace produced by
`this.configWatchers.forEach((watcher) => watcher(this.config))`
after `this.config` was set to `c`: each watcher, in registration order,
invoked with the new config. -/
def watcherCalls (ws : List Nat) (c : Config) : List LogEntry :=
  ws.map fun w => LogEntry.watcher w c

/-- Semantics of one event-bus handler applied to a dispatched event.
* `updater` is the closure pushed by the `ConfigSDK` constructor:
  `if (event.event !== 'set-config') return; this.config = event.payload;
  this.configWatchers.forEach((watcher) => watcher(this.config));`
* `onHandler` is the closure pushed by `ConfigSDK.on`.
* `plain` / `pusher` are opaque user handlers (trace only / trace and
  register a further `plain` handler). -/
def runHandler (h : HandlerSpec) (e : DashboardEvent) (s : SDKState) : SDKState :=
  match h with
  | HandlerSpec.updater =>
      if e.event = "set-config" then
        { s with config := e.payload
                 log := s.log ++ watcherCalls s.configWatchers e.payload }
      else s
  | HandlerSpec.onHandler ev key cb =>
      if onMatches ev key e then { s with log := s.log ++ [LogEntry.call cb] } else s
  | HandlerSpec.plain id => { s with log := s.log ++ [LogEntry.call id] }
  | HandlerSpec.pusher id pushedId =>
      { s with log := s.log ++ [LogEntry.call id]
               handlers := s.handlers ++ [HandlerSpec.plain pushedId] }

/-- TS `EventBus.pushHandler`: appends a handler to the ordered list. -/
def pushHandler (h : HandlerSpec) (s : SDKState) : SDKState :=
  { s with handlers := s.handlers ++ [h] }

/-- Iteration core of `EventBus.trigger`
(`this.handlers.forEach((handler) => handler(event))`): `fuel` is the
number of indices still to visit out of the length captured at the start,
`k` the next index; the handler list is re-read at each index, so handlers
appended mid-pass are visible in the list but outside the captured range. -/
def triggerAux (e : DashboardEvent) : Nat → Nat → SDKState → SDKState
  | 0, _, s => s
  | fuel + 1, k, s =>
      match s.handlers[k]? with
      | none => s
      | some h =>
          triggerAux e fuel (k + 1)
            (runHandler h e { s with log := s.log ++ [LogEntry.run k] })

/-- TS `EventBus.trigger(event)`. -/
def trigger (e : DashboardEvent) (s : SDKState) : SDKState :=
  triggerAux e s.handlers.length 0 s

/-- TS `ConfigSDK.getConfig()`. -/
def getConfig (s : SDKState) : Config :=
  s.config

/-- TS `ConfigSDK.on(event, key, handler)`: pushes the filtering closure
onto the event bus.  (Named `onEvent` here because `on` is taken by
Mathlib notation.) -/
def onEvent (event : String) (key : String) (cb : Nat) (s : SDKState) : SDKState :=
  pushHandler (HandlerSpec.onHandler event key cb) s

/-- TS `ConfigSDK.onConfigUpdate(handler)`: appends to `configWatchers`. -/
def onConfigUpdate (w : Nat) (s : SDKState) : SDKState :=
  { s with configWatchers := s.configWatchers ++ [w] }

/-- TS `this.parent.emit(name, payload)`: record one outbound message. -/
def emitTo (name : String) (p : Option EmitPayload) (s : SDKState) : SDKState :=
  { s with log := s.log ++ [LogEntry.emit name p] }

/-- TS `ConfigSDK.setHeight(height)`: emits the height string-encoded. -/
def setHeight (height : Int) (s : SDKState) : SDKState :=
  emitTo "set-height" (some (EmitPayload.str (toString height))) s

/-- TS `ConfigSDK.setConfig(config)` (revised source):
`this.parent.emit('update-config', config)`.  The local mirror is not
touched. -/
def setConfig (c : Config) (s : SDKState) : SDKState :=
  emitTo "update-config" (some (EmitPayload.cfg c)) s

/-- TS `ConfigSDK.setConfig(config)` (legacy `src/index.ts`):
`this.parent.emit('save', config)`. -/
def setConfigLegacy (c : Config) (s : SDKState) : SDKState :=
  emitTo "save" (some (EmitPayload.cfg c)) s

/-- TS `ConfigSDK.setSchema(schema)`. -/
def setSchema (sch : Schema) (s : SDKState) : SDKState :=
  emitTo "set-schema" (some (EmitPayload.schema sch)) s

/-- TS `ConfigSDK.setSavable(savable)`. -/
def setSavable (b : Bool) (s : SDKState) : SDKState :=
  emitTo "set-savable" (some (EmitPayload.bool b)) s

/-- TS `ConfigSDK.setExternalId(id)`. -/
def setExternalId (id : String) (s : SDKState) : SDKState :=
  emitTo "set-external-id" (some (EmitPayload.str id)) s

/-- TS `ConfigSDK.save()`:
`if (!this.editMode) return; this.parent.emit('save');`. -/
def save (s : SDKState) : SDKState :=
  if s.editMode then emitTo "save" none s else s

/-- The initial model the host hands over at handshake time
(`childApi.model`): optional `config`, `editMode`, template `code`. -/
structure HostModel where
  config : Option Config
  editMode : Bool
  code : String

/-- TS `ConfigSDK` constructor body: seed `config` (`model.config || {}`),
`editMode` (`Boolean(model.editMode)`), `template` (`model.code`), start
with no config watchers, and push the internal `set-config` state updater
onto the (fresh, empty) event bus created by `createSDK`. -/
def ConfigSDK.construct (m : HostModel) : SDKState :=
  { config := m.config.getD []
    configWatchers := []
    editMode := m.editMode
    template := m.code
    handlers := [HandlerSpec.updater]
    log := [] }

/-- `document.body.getBoundingClientRect()`, restricted to the two members
the SDK reads. -/
structure Rect where
  y : Int
  height : Int

/-- The document body: the SDK only ever takes its bounding box. -/
structure DocumentBody where
  rect : Rect

/-- The global `document`, whose `body` may be absent. -/
structure Document where
  body : Option DocumentBody

/-- The execution environment: the global `document` may be absent. -/
structure BrowserEnv where
  document : Option Document

/-- TS `!document || !document.body`, negated: a body is available. -/
def envHasBody (env : BrowserEnv) : Bool :=
  match env.document with
  | none => false
  | some doc => doc.body.isSome

/-- The message of the environment error thrown by `enableAutoResize`. -/
def autoResizeErrorMsg : String :=
  "Auto-resize can only be enabled when a document (and body) is present"

/-- `calculateHeight` (revised source):
`const rect = document.body.getBoundingClientRect();
return (2 * rect.y) + rect.height;`. -/
def calculateHeight (rect : Rect) : Int :=
  2 * rect.y + rect.height

/-- `calculateHeight` (legacy `src/index.ts`):
`return rect.y + rect.height;`. -/
def calculateHeightLegacy (rect : Rect) : Int :=
  rect.y + rect.height

/-- The resize-observer handle returned inside `enableAutoResize`:
`observing = true` records that `observer.observe(document.body)` ran. -/
structure ResizeHandle where
  observing : Bool

/-- TS `ConfigSDK.enableAutoResize()` (revised source), as a
state-and-exception function: throws the environment error when the
document or its body is missing (in which case no observer is created and
nothing is emitted); otherwise creates the observer and broadcasts an
initial height computed by `calculateHeight`. -/
def enableAutoResize (env : BrowserEnv) (s : SDKState) :
    Except String (SDKState × ResizeHandle) :=
  match env.document with
  | none => Except.error autoResizeErrorMsg
  | some doc =>
      match doc.body with
      | none => Except.error autoResizeErrorMsg
      | some body =>
          Except.ok (setHeight (calculateHeight body.rect) s, { observing := true })

/-- TS `ConfigSDK.enableAutoResize()` (legacy `src/index.ts`): identical
except for the height formula. -/
def enableAutoResizeLegacy (env : BrowserEnv) (s : SDKState) :
    Except String (SDKState × ResizeHandle) :=
  match env.document with
  | none => Except.error autoResizeErrorMsg
  | some doc =>
      match doc.body with
      | none => Except.error autoResizeErrorMsg
      | some body =>
          Except.ok (setHeight (calculateHeightLegacy body.rect) s, { observing := true })

/-- The resize-observer callback of the revised source:
`new ResizeObserver(() => { this.setHeight(calculateHeight()); })`,
fired when the observed body's box is `body`. -/
def resizeObserverFire (body : DocumentBody) (s : SDKState) : SDKState :=
  setHeight (calculateHeight body.rect) s

/-- The resize-observer callback of the legacy source. -/
def resizeObserverFireLegacy (body : DocumentBody) (s : SDKState) : SDKState :=
  setHeight (calculateHeightLegacy body.rect) s

/-- The state component of an `enableAutoResize` result, when it succeeded. -/
def okState (r : Except String (SDKState × ResizeHandle)) : Option SDKState :=
  match r with
  | Except.ok p => some p.1
  | Except.error _ => none

/-- Recognizes bus-invocation trace entries. -/
def isRun (x : LogEntry) : Bool :=
  match x with
  | LogEntry.run _ => true
  | _ => false

/-- Recognizes user-callback trace entries. -/
def isCall (x : LogEntry) : Bool :=
  match x with
  | LogEntry.call _ => true
  | _ => false

/-- Recognizes handlers of the shape registered by `ConfigSDK.on`. -/
def isOnShaped (h : HandlerSpec) : Bool :=
  match h with
  | HandlerSpec.onHandler _ _ _ => true
  | _ => false

/-- The outbound messages of a trace, in emission order. -/
def outboundEmits (l : List LogEntry) : List (String × Option EmitPayload) :=
  l.filterMap fun x =>
    match x with
    | LogEntry.emit name p => some (name, p)
    | _ => none

/-- The trace entries one handler appends, as a function of the dispatched
event and the watcher list (the only state a handler's trace depends on). -/
def handlerLogExt (h : HandlerSpec) (e : DashboardEvent) (ws : List Nat) : List LogEntry :=
  match h with
  | HandlerSpec.updater =>
      if e.event = "set-config" then watcherCalls ws e.payload else []
  | HandlerSpec.onHandler ev key cb =>
      if onMatches ev key e then [LogEntry.call cb] else []
  | HandlerSpec.plain id => [LogEntry.call id]
  | HandlerSpec.pusher id _ => [LogEntry.call id]

theorem runHandler_log (h : HandlerSpec) (e : DashboardEvent) (s : SDKState) :
    (runHandler h e s).log = s.log ++ handlerLogExt h e s.configWatchers := by
  cases h with
  | updater =>
      simp only [runHandler, handlerLogExt]
      split
      · rfl
      · simp
  | onHandler ev key cb =>
      simp only [runHandler, handlerLogExt]
      split
      · rfl
      · simp
  | plain id => rfl
  | pusher id pushedId => rfl

theorem watcherCalls_filter_isRun (ws : List Nat) (c : Config) :
    (watcherCalls ws c).filter isRun = [] := by
  induction ws with
  | nil => rfl
  | cons w ws ih =>
      simp [watcherCalls, List.filter_cons, isRun]

theorem handlerLogExt_filter_isRun (h : HandlerSpec) (e : DashboardEvent) (ws : List Nat) :
    (handlerLogExt h e ws).filter isRun = [] := by
  cases h with
  | updater =>
      simp only [handlerLogExt]
      split
      · exact watcherCalls_filter_isRun ws e.payload
      · rfl
  | onHandler ev key cb =>
      simp only [handlerLogExt]
      split
      · simp [isRun]
      · rfl
  | plain id => simp [handlerLogExt, isRun]
  | pusher id pushedId => simp [handlerLogExt, isRun]

theorem runHandler_handlers (h : HandlerSpec) (e : DashboardEvent) (s : SDKState) :
    ∃ t, (runHandler h e s).handlers = s.handlers ++ t := by
  cases h with
  | updater =>
      simp only [runHandler]
      split
      · exact ⟨[], by simp⟩
      · exact ⟨[], by simp⟩
  | onHandler ev key cb =>
      simp only [runHandler]
      split
      · exact ⟨[], by simp⟩
      · exact ⟨[], by simp⟩
  | plain id => exact ⟨[], by simp [runHandler]⟩
  | pusher id pushedId => exact ⟨[HandlerSpec.plain pushedId], rfl⟩

theorem runHandler_editMode (h : HandlerSpec) (e : DashboardEvent) (s : SDKState) :
    (runHandler h e s).editMode = s.editMode := by
  cases h with
  | updater =>
      simp only [runHandler]
      split <;> rfl
  | onHandler ev key cb =>
      simp only [runHandler]
      split <;> rfl
  | plain id => rfl
  | pusher id pushedId => rfl

theorem runHandler_configWatchers (h : HandlerSpec) (e : DashboardEvent) (s : SDKState) :
    (runHandler h e s).configWatchers = s.configWatchers := by
  cases h with
  | updater =>
      simp only [runHandler]
      split <;> rfl
  | onHandler ev key cb =>
      simp only [runHandler]
      split <;> rfl
  | plain id => rfl
  | pusher id pushedId => rfl

theorem triggerAux_editMode (e : DashboardEvent) :
    ∀ fuel k s, (triggerAux e fuel k s).editMode = s.editMode := by
  intro fuel
  induction fuel with
  | zero => intro k s; rfl
  | succ n ih =>
      intro k s
      simp only [triggerAux]
      cases hg : s.handlers[k]? with
      | none => rfl
      | some h => rw [ih, runHandler_editMode]

theorem trigger_editMode (e : DashboardEvent) (s : SDKState) :
    (trigger e s).editMode = s.editMode :=
  triggerAux_editMode e s.handlers.length 0 s

theorem triggerAux_log (e : DashboardEvent) :
    ∀ fuel k s, k + fuel ≤ s.handlers.length →
      ∃ ext, (triggerAux e fuel k s).log = s.log ++ ext ∧
        ext.filter isRun = (List.range' k fuel).map LogEntry.run := by
  intro fuel
  induction fuel with
  | zero =>
      intro k s _
      exact ⟨[], by simp [triggerAux], by simp⟩
  | succ n ih =>
      intro k s hlen
      have hk : k < s.handlers.length := by omega
      have hg : s.handlers[k]? = some s.handlers[k] := List.getElem?_eq_getElem hk
      simp only [triggerAux, hg]
      obtain ⟨t, ht⟩ :=
        runHandler_handlers s.handlers[k] e { s with log := s.log ++ [LogEntry.run k] }
      have hlen2 :
          (k + 1) + n ≤
            (runHandler s.handlers[k] e { s with log := s.log ++ [LogEntry.run k] }).handlers.length := by
        rw [ht]
        simp only [List.length_append]
        omega
      obtain ⟨ext2, hlog2, hfil2⟩ := ih (k + 1) _ hlen2
      refine ⟨[LogEntry.run k] ++ handlerLogExt s.handlers[k] e s.configWatchers ++ ext2, ?_, ?_⟩
      · rw [hlog2, runHandler_log]
        simp [List.append_assoc]
      · simp only [List.filter_append, hfil2, handlerLogExt_filter_isRun]
        simp [isRun, List.range'_succ]

theorem trigger_log (e : DashboardEvent) (s : SDKState) :
    ∃ ext, (trigger e s).log = s.log ++ ext ∧
      ext.filter isRun = (List.range s.handlers.length).map LogEntry.run := by
  obtain ⟨ext, h1, h2⟩ := triggerAux_log e s.handlers.length 0 s (by omega)
  exact ⟨ext, h1, by rw [h2, List.range_eq_range']⟩

theorem all_getElem_of_drop {α : Type} (p : α → Bool) :
    ∀ (l : List α) (k : Nat) (a : α),
      (l.drop k).all p = true → l[k]? = some a → p a = true := by
  intro l
  induction l with
  | nil =>
      intro k a _ hg
      simp at hg
  | cons x xs ih =>
      intro k a hall hg
      cases k with
      | zero =>
          simp at hg
          simp only [List.drop_zero, List.all_cons, Bool.and_eq_true] at hall
          rw [← hg]
          exact hall.1
      | succ k =>
          simp only [List.getElem?_cons_succ] at hg
          simp only [List.drop_succ_cons] at hall
          exact ih k a hall hg

theorem all_drop_succ {α : Type} (p : α → Bool) (l : List α) (k : Nat)
    (h : (l.drop k).all p = true) : (l.drop (k + 1)).all p = true := by
  have hd : l.drop (k + 1) = (l.drop k).drop 1 := by
    rw [List.drop_drop]
  rw [hd]
  cases hk : l.drop k with
  | nil => simp
  | cons y ys =>
      rw [hk] at h
      simp only [List.all_cons, Bool.and_eq_true] at h
      simpa using h.2

theorem runHandler_onShaped (h : HandlerSpec) (e : DashboardEvent) (s : SDKState)
    (hh : isOnShaped h = true) :
    (runHandler h e s).config = s.config ∧
    (runHandler h e s).handlers = s.handlers ∧
    ∀ x ∈ handlerLogExt h e s.configWatchers, isCall x = true := by
  cases h with
  | updater => simp [isOnShaped] at hh
  | plain id => simp [isOnShaped] at hh
  | pusher id pushedId => simp [isOnShaped] at hh
  | onHandler ev key cb =>
      refine ⟨?_, ?_, ?_⟩
      · simp only [runHandler]
        split <;> rfl
      · simp only [runHandler]
        split <;> rfl
      · simp only [handlerLogExt]
        split
        · intro x hx
          simp only [List.mem_singleton] at hx
          rw [hx]
          rfl
        · intro x hx
          simp at hx

theorem triggerAux_onOnly (e : DashboardEvent) :
    ∀ fuel k s, (s.handlers.drop k).all isOnShaped = true →
      (triggerAux e fuel k s).config = s.config ∧
      ∃ tail, (triggerAux e fuel k s).log = s.log ++ tail ∧
        ∀ x ∈ tail, isRun x = true ∨ isCall x = true := by
  intro fuel
  induction fuel with
  | zero =>
      intro k s _
      refine ⟨rfl, [], ?_, ?_⟩
      · simp [triggerAux]
      · intro x hx
        simp at hx
  | succ n ih =>
      intro k s hall
      cases hg : s.handlers[k]? with
      | none =>
          refine ⟨?_, [], ?_, ?_⟩ <;> simp [triggerAux, hg]
      | some h =>
          simp only [triggerAux, hg]
          have hhshape : isOnShaped h = true :=
            all_getElem_of_drop isOnShaped s.handlers k h hall hg
          obtain ⟨hcfg, hhand, hcalls⟩ :=
            runHandler_onShaped h e { s with log := s.log ++ [LogEntry.run k] } hhshape
          have hall2 :
              ((runHandler h e { s with log := s.log ++ [LogEntry.run k] }).handlers.drop
                  (k + 1)).all isOnShaped = true := by
            rw [hhand]
            exact all_drop_succ isOnShaped s.handlers k hall
          obtain ⟨hcfg2, tail2, hlog2, htail2⟩ :=
            ih (k + 1) (runHandler h e { s with log := s.log ++ [LogEntry.run k] }) hall2
          refine ⟨?_, [LogEntry.run k] ++ handlerLogExt h e s.configWatchers ++ tail2, ?_, ?_⟩
          · rw [hcfg2, hcfg]
          · rw [hlog2, runHandler_log]
            simp [List.append_assoc]
          · intro x hx
            simp only [List.append_assoc, List.mem_append, List.mem_singleton] at hx
            rcases hx with hx | hx | hx
            · rw [hx]
              exact Or.inl rfl
            · exact Or.inr (hcalls x hx)
            · exact htail2 x hx

/-- A session whose prior config is `{a:1, b:2}` with two registered config
watchers (ids 5 and 6), as produced by the constructor followed by two
`onConfigUpdate` calls. -/
def sdkC1 : SDKState :=
  onConfigUpdate 6 (onConfigUpdate 5
    (ConfigSDK.construct { config := some [("a", 1), ("b", 2)], editMode := true, code := "tpl" }))

/-- A `set-config` push from the host carrying payload `{a:1}`. -/
def evSetConfigA1 : DashboardEvent :=
  { event := "set-config", field := none, payload := [("a", 1)] }

/-- An inbound event with any other name. -/
def evOtherName : DashboardEvent :=
  { event := "some-other-event", field := none, payload := [("z", 9)] }

/-- C1: dispatching an inbound event replaces the whole config mirror with
the event payload and invokes every registered config watcher, in
registration order, with the new value, if and only if the event name is
`set-config`; any other name leaves the mirror and the watchers untouched.
In particular, after a `set-config` event with payload `{a:1}`,
`getConfig()` returns exactly `{a:1}` even though the prior config was
`{a:1, b:2}` (full replacement, not merge). -/
theorem C1_setConfig_event_full_replacement :
    (∀ (s : SDKState) (e : DashboardEvent),
        runHandler HandlerSpec.updater e s =
          if e.event = "set-config" then
            { s with config := e.payload
                     log := s.log ++ watcherCalls s.configWatchers e.payload }
          else s) ∧
    getConfig (trigger evSetConfigA1 sdkC1) = [("a", 1)] ∧
    (trigger evSetConfigA1 sdkC1).log =
      [LogEntry.run 0, LogEntry.watcher 5 [("a", 1)], LogEntry.watcher 6 [("a", 1)]] ∧
    getConfig (trigger evOtherName sdkC1) = [("a", 1), ("b", 2)] ∧
    (trigger evOtherName sdkC1).log = [LogEntry.run 0] ∧
    (trigger evOtherName sdkC1).configWatchers = sdkC1.configWatchers :=
  ⟨fun _ _ => rfl, rfl, rfl, rfl, rfl, rfl⟩

/-- C2: one `trigger` call invokes each handler registered before the call
exactly once, in registration order: the bus-invocation entries appended to
the trace by `trigger e s` are exactly `run 0, run 1, ..., run (n-1)` in
that order, where `n` is the number of handlers at the start of the call. -/
theorem C2_trigger_invokes_in_registration_order (s : SDKState) (e : DashboardEvent) :
    ∃ ext, (trigger e s).log = s.log ++ ext ∧
      ext.filter isRun = (List.range s.handlers.length).map LogEntry.run :=
  trigger_log e s

/-- An event bus holding one handler A (`pusher 0 1`) that, when invoked,
registers a further handler B (`plain 1`). -/
def busC3 : SDKState :=
  { config := []
    configWatchers := []
    editMode := false
    template := ""
    handlers := [HandlerSpec.pusher 0 1]
    log := [] }

/-- An arbitrary inbound event for the C3 scenario. -/
def evC3 : DashboardEvent :=
  { event := "anything", field := none, payload := [] }

/-- C3: a handler registered via `pushHandler` from inside a handler running
during a `trigger` pass is not invoked within that pass (the bus never
invokes an index at or beyond the handler count captured at the start), and
is only invoked by subsequent `trigger` calls.  Concretely: handler A
registers handler B during the first pass; that pass invokes only A, and a
second `trigger` invokes A and then B. -/
theorem C3_handlers_added_mid_dispatch_wait :
    (∀ (s : SDKState) (e : DashboardEvent) (k : Nat),
        s.handlers.length ≤ k →
        LogEntry.run k ∉ (trigger e s).log.drop s.log.length) ∧
    (trigger evC3 busC3).handlers = [HandlerSpec.pusher 0 1, HandlerSpec.plain 1] ∧
    (trigger evC3 busC3).log = [LogEntry.run 0, LogEntry.call 0] ∧
    (trigger evC3 (trigger evC3 busC3)).log =
      [LogEntry.run 0, LogEntry.call 0,
       LogEntry.run 0, LogEntry.call 0, LogEntry.run 1, LogEntry.call 1] := by
  refine ⟨?_, rfl, rfl, rfl⟩
  intro s e k hk hmem
  obtain ⟨ext, hlog, hfil⟩ := trigger_log e s
  rw [hlog, List.drop_left] at hmem
  have hmem2 : LogEntry.run k ∈ ext.filter isRun := List.mem_filter.mpr ⟨hmem, rfl⟩
  rw [hfil] at hmem2
  obtain ⟨i, hi, hik⟩ := List.mem_map.mp hmem2
  cases hik
  exact absurd (List.mem_range.mp hi) (by omega)

/-- A session on which `on('click', 'my_button', cb)` (callback id 7) was
registered after construction. -/
def sdkC4 : SDKState :=
  onEvent "click" "my_button" 7
    (ConfigSDK.construct { config := some [], editMode := true, code := "tpl" })

/-- `{event:'click', field:{key:'my_button'}, payload:...}`. -/
def evClickMyButton : DashboardEvent :=
  { event := "click", field := some { key := "my_button" }, payload := [("p", 1)] }

/-- `{event:'click', field:{key:'other'}}`. -/
def evClickOtherKey : DashboardEvent :=
  { event := "click", field := some { key := "other" }, payload := [] }

/-- `{event:'other', field:{key:'my_button'}}`. -/
def evOtherMyButton : DashboardEvent :=
  { event := "other", field := some { key := "my_button" }, payload := [] }

/-- `{event:'click', field:null}`. -/
def evClickNullField : DashboardEvent :=
  { event := "click", field := none, payload := [] }

/-- C4: a handler registered through `on(eventName, fieldKey, handler)` is
invoked (with no arguments) by a dispatched event if and only if the
event's name equals `eventName`, its `field` is non-null, and the field's
key equals `fieldKey`.  Concretely, `on('click','my_button',cb)` fires for
`{event:'click', field:{key:'my_button'}}` and does not fire when only the
name matches, only the key matches, or the field is null. -/
theorem C4_on_fires_iff_name_and_field_key_match :
    (∀ (ev key : String) (cb : Nat) (e : DashboardEvent) (s : SDKState),
        runHandler (HandlerSpec.onHandler ev key cb) e s =
          if onMatches ev key e then
            { s with log := s.log ++ [LogEntry.call cb] }
          else s) ∧
    (∀ (ev key : String) (e : DashboardEvent),
        onMatches ev key e = true ↔
          e.event = ev ∧ ∃ f, e.field = some f ∧ f.key = key) ∧
    (trigger evClickMyButton sdkC4).log =
      [LogEntry.run 0, LogEntry.run 1, LogEntry.call 7] ∧
    (trigger evClickOtherKey sdkC4).log = [LogEntry.run 0, LogEntry.run 1] ∧
    (trigger evOtherMyButton sdkC4).log = [LogEntry.run 0, LogEntry.run 1] ∧
    (trigger evClickNullField sdkC4).log = [LogEntry.run 0, LogEntry.run 1] := by
  refine ⟨fun _ _ _ _ _ => rfl, ?_, rfl, rfl, rfl, rfl⟩
  intro ev key e
  unfold onMatches fieldKeyMatches
  cases hf : e.field with
  | none => simp [hf]
  | some f =>
      simp only [Bool.and_eq_true, beq_iff_eq, hf]
      constructor
      · intro ⟨h1, h2⟩
        exact ⟨h1, f, rfl, h2⟩
      · intro ⟨h1, g, hg, h2⟩
        cases hg
        exact ⟨h1, h2⟩

/-- C5: `save()` emits nothing and is a silent no-op (the state is returned
unchanged, with no error) when `editMode` is false, and appends exactly one
outbound `save` emission with no payload when `editMode` is true. -/
theorem C5_save_only_in_edit_mode (s : SDKState) :
    save s =
      (if s.editMode then { s with log := s.log ++ [LogEntry.emit "save" none] } else s) ∧
    outboundEmits (save s).log =
      outboundEmits s.log ++
        (if s.editMode then [("save", (none : Option EmitPayload))] else []) := by
  constructor
  · rfl
  · unfold save emitTo
    split
    · simp [outboundEmits, List.filterMap_append]
    · simp

/-- C6: `setConfig(p)` emits exactly one outbound config-update request
carrying `p` (and changes nothing else in the session), so the local config
mirror is not optimistically updated: `getConfig()` is the same before and
after the call. -/
theorem C6_setConfig_emits_without_local_update (s : SDKState) (p : Config) :
    setConfig p s =
      { s with log := s.log ++ [LogEntry.emit "update-config" (some (EmitPayload.cfg p))] } ∧
    outboundEmits (setConfig p s).log =
      outboundEmits s.log ++ [("update-config", some (EmitPayload.cfg p))] ∧
    getConfig (setConfig p s) = getConfig s ∧
    (setConfig p s).config = s.config := by
  refine ⟨rfl, ?_, rfl, rfl⟩
  unfold setConfig emitTo
  simp [outboundEmits, List.filterMap_append]

/-- An empty session used to instantiate environment-dependent claims. -/
def sdkBlank : SDKState :=
  { config := []
    configWatchers := []
    editMode := false
    template := ""
    handlers := []
    log := [] }

/-- C7: `enableAutoResize()` in an execution environment with no `document`
or no `document.body` fails with the environment error synchronously: the
result is the error alone, so no resize observer is created and no height
message is emitted. -/
theorem C7_enableAutoResize_requires_body (env : BrowserEnv) (s : SDKState)
    (h : envHasBody env = false) :
    enableAutoResize env s = Except.error autoResizeErrorMsg := by
  cases env with
  | mk d =>
      cases d with
      | none => rfl
      | some doc =>
          cases doc with
          | mk b =>
              cases b with
              | none => rfl
              | some body => simp [envHasBody] at h

/-- C7 witness: both degenerate environments (no document at all; a document
without a body) make `enableAutoResize` fail with the environment error. -/
theorem C7_enableAutoResize_requires_body_witness :
    enableAutoResize { document := none } sdkBlank = Except.error autoResizeErrorMsg ∧
    enableAutoResize { document := some { body := none } } sdkBlank =
      Except.error autoResizeErrorMsg :=
  ⟨C7_enableAutoResize_requires_body { document := none } sdkBlank rfl,
   C7_enableAutoResize_requires_body { document := some { body := none } } sdkBlank rfl⟩

/-- C8 counterexample: with a body bounding box of `y = 10`, `height = 100`,
the legacy revision (`src/index.ts`) reports the height `10 + 100 = 110`,
not `2 * 10 + 100 = 120` as the claim states for every report. -/
theorem C8_height_formula_counterexample :
    (resizeObserverFireLegacy { rect := { y := 10, height := 100 } } sdkBlank).log =
      [LogEntry.emit "set-height" (some (EmitPayload.str "110"))] ∧
    calculateHeightLegacy { y := 10, height := 100 } = 110 ∧
    (110 : Int) ≠ 2 * 10 + 100 :=
  ⟨rfl, rfl, by decide⟩

/-- C8 (amended): in the revised source (`src/unnamed/part_000`) every
height reported while auto-resize is active — the immediate initial report
and each report on a body box change — equals `2 * rect.y + rect.height`;
in the legacy source (`src/index.ts`) each such report instead equals
`rect.y + rect.height`. -/
theorem C8_reported_heights :
    (∀ r : Rect, calculateHeight r = 2 * r.y + r.height) ∧
    (∀ (b : DocumentBody) (s : SDKState),
        resizeObserverFire b s =
          { s with log := s.log ++ [LogEntry.emit "set-height"
              (some (EmitPayload.str (toString (2 * b.rect.y + b.rect.height))))] }) ∧
    (∀ (b : DocumentBody) (s : SDKState),
        enableAutoResize { document := some { body := some b } } s =
          Except.ok
            ({ s with log := s.log ++ [LogEntry.emit "set-height"
                (some (EmitPayload.str (toString (2 * b.rect.y + b.rect.height))))] },
             { observing := true })) ∧
    (∀ r : Rect, calculateHeightLegacy r = r.y + r.height) ∧
    (∀ (b : DocumentBody) (s : SDKState),
        resizeObserverFireLegacy b s =
          { s with log := s.log ++ [LogEntry.emit "set-height"
              (some (EmitPayload.str (toString (b.rect.y + b.rect.height))))] }) ∧
    (∀ (b : DocumentBody) (s : SDKState),
        enableAutoResizeLegacy { document := some { body := some b } } s =
          Except.ok
            ({ s with log := s.log ++ [LogEntry.emit "set-height"
                (some (EmitPayload.str (toString (b.rect.y + b.rect.height))))] },
             { observing := true })) :=
  ⟨fun _ => rfl, fun _ _ => rfl, fun _ _ => rfl,
   fun _ => rfl, fun _ _ => rfl, fun _ _ => rfl⟩

/-- C9: `editMode` is seeded exactly once, at construction, from the host's
initial model, and no public operation of the session nor any inbound event
dispatch changes it afterwards. -/
theorem C9_editMode_set_once_then_immutable :
    (∀ m : HostModel, (ConfigSDK.construct m).editMode = m.editMode) ∧
    (∀ (ev key : String) (cb : Nat) (s : SDKState),
        (onEvent ev key cb s).editMode = s.editMode) ∧
    (∀ (w : Nat) (s : SDKState), (onConfigUpdate w s).editMode = s.editMode) ∧
    (∀ (h : Int) (s : SDKState), (setHeight h s).editMode = s.editMode) ∧
    (∀ (p : Config) (s : SDKState), (setConfig p s).editMode = s.editMode) ∧
    (∀ (sch : Schema) (s : SDKState), (setSchema sch s).editMode = s.editMode) ∧
    (∀ (b : Bool) (s : SDKState), (setSavable b s).editMode = s.editMode) ∧
    (∀ (i : String) (s : SDKState), (setExternalId i s).editMode = s.editMode) ∧
    (∀ s : SDKState, (save s).editMode = s.editMode) ∧
    (∀ (b : DocumentBody) (s : SDKState),
        (okState (enableAutoResize { document := some { body := some b } } s)).map
          SDKState.editMode = some s.editMode) ∧
    (∀ (e : DashboardEvent) (s : SDKState), (trigger e s).editMode = s.editMode) := by
  refine ⟨fun _ => rfl, fun _ _ _ _ => rfl, fun _ _ => rfl, fun _ _ => rfl, fun _ _ => rfl,
    fun _ _ => rfl, fun _ _ => rfl, fun _ _ => rfl, ?_, fun _ _ => rfl, trigger_editMode⟩
  intro s
  simp only [save]
  split <;> rfl

/-- A session as the user would build it: constructed from the host model,
then one config watcher (id 9) and one `on('click','btn',cb)` handler
(callback id 3) registered. -/
def sdkC10 : SDKState :=
  onEvent "click" "btn" 3 (onConfigUpdate 9
    (ConfigSDK.construct { config := some [("a", 1)], editMode := true, code := "tpl" }))

/-- A `set-config` push whose field also names the `on`-watched key. -/
def evC10 : DashboardEvent :=
  { event := "set-config", field := some { key := "btn" }, payload := [("b", 2)] }

/-- C10: the internal `set-config` state updater is the one handler the
constructor registers, so it sits first on the event bus, and `on` only
appends after it; consequently, dispatching a `set-config` event first
replaces the config mirror and runs every config watcher, and only then are
the handlers registered through `on` invoked, so the trace after the
watcher calls holds nothing but bus invocations and `on`-callback calls,
and the final config is the event payload. -/
theorem C10_updater_registered_first :
    (∀ m : HostModel, (ConfigSDK.construct m).handlers = [HandlerSpec.updater]) ∧
    (∀ (ev key : String) (cb : Nat) (s : SDKState),
        (onEvent ev key cb s).handlers = s.handlers ++ [HandlerSpec.onHandler ev key cb]) ∧
    (∀ (e : DashboardEvent) (s : SDKState) (rest : List HandlerSpec),
        e.event = "set-config" →
        s.handlers = HandlerSpec.updater :: rest →
        rest.all isOnShaped = true →
        (trigger e s).config = e.payload ∧
        ∃ tail, (trigger e s).log =
            (s.log ++ (LogEntry.run 0 :: watcherCalls s.configWatchers e.payload)) ++ tail ∧
          ∀ x ∈ tail, isRun x = true ∨ isCall x = true) ∧
    (trigger evC10 sdkC10).config = [("b", 2)] ∧
    (trigger evC10 sdkC10).log =
      [LogEntry.run 0, LogEntry.watcher 9 [("b", 2)], LogEntry.run 1] := by
  refine ⟨fun _ => rfl, fun _ _ _ _ => rfl, ?_, rfl, rfl⟩
  intro e s rest hev hh hall
  have hlen : s.handlers.length = rest.length + 1 := by
    rw [hh]
    rfl
  have h0 : s.handlers[0]? = some HandlerSpec.updater := by
    rw [hh]
    simp
  have hrun :
      runHandler HandlerSpec.updater e { s with log := s.log ++ [LogEntry.run 0] } =
        { s with config := e.payload
                 log := (s.log ++ [LogEntry.run 0]) ++
                   watcherCalls s.configWatchers e.payload } := by
    simp only [runHandler, if_pos hev]
  have hdrop :
      (({ s with config := e.payload
                 log := (s.log ++ [LogEntry.run 0]) ++
                   watcherCalls s.configWatchers e.payload } : SDKState).handlers.drop 1).all
        isOnShaped = true := by
    show ((s.handlers).drop 1).all isOnShaped = true
    rw [hh]
    simpa using hall
  unfold trigger
  rw [hlen]
  simp only [triggerAux, h0, hrun]
  obtain ⟨hcfg, tail, hlog, htail⟩ := triggerAux_onOnly e rest.length 1 _ hdrop
  refine ⟨by rw [hcfg], tail, ?_, htail⟩
  rw [hlog]
  simp [List.append_assoc]

end ChecSDK
